import Mathlib

/-!
Shallow embedding of the aggregation and filtering core of `src/app.py`
(an IoT water-level dashboard).  A pandas `DataFrame` row becomes a `Row`
record whose nullable columns are `Option`s; a frame is a `List Row` kept in
row order.  Instants (the `Timestamp` column, `pd.Timestamp` values in UTC)
are modelled as UTC epoch seconds (`Int`); `WaterLevel` is `ℚ`.
A missing column is identified with an all-`none` column, which matches the
code's guard `"Status" in frame.columns and frame["Status"].notna().any()`:
the guard holds exactly when some row carries a non-null value.
-/

structure Row where
  Timestamp  : Option Int
  Client     : Option String
  District   : Option String
  DeviceID   : Option String
  DeviceType : Option String
  FarmerName : Option String
  WaterLevel : Option ℚ
  Status     : Option String
  deriving DecidableEq

abbrev Frame := List Row

/-- A row with every column null, used to build concrete frames. -/
def blankRow : Row := ⟨none, none, none, none, none, none, none, none⟩

/-! ### Status derivation (`derive_status_counts`, app.py lines 250-265) -/

/-- `frame.dropna(subset=["DeviceID","Status"])` (app.py line 252). -/
def notNullDevStatus (frame : Frame) : Frame :=
  frame.filter fun r => r.DeviceID.isSome && r.Status.isSome

/-- `.drop_duplicates(subset=["DeviceID"], keep="last")` (app.py line 253):
keep, in original order, each row that is the last occurrence of its
`DeviceID`. -/
def dropDupKeepLast : Frame → Frame
  | [] => []
  | r :: rs =>
      if rs.any fun r2 => r2.DeviceID == r.DeviceID then dropDupKeepLast rs
      else r :: dropDupKeepLast rs

/-- The distinct `Status` values of `rows`, sorted ascending: the group keys
produced by `groupby("Status")` (pandas sorts group keys). -/
def statusKeys (rows : Frame) : List String :=
  List.insertionSort (· ≤ ·) (rows.filterMap fun r => r.Status).dedup

/-- `["DeviceID"].nunique()`: number of distinct non-null `DeviceID` values. -/
def deviceNunique (rows : Frame) : Nat :=
  ((rows.filterMap fun r => r.DeviceID).dedup).length

/-- The explicit-`Status` branch of `derive_status_counts` (app.py lines
252-255): drop rows with null `DeviceID` or `Status`, keep the last row per
`DeviceID`, then `groupby("Status")["DeviceID"].nunique()`. -/
def explicitStatusCounts (frame : Frame) : List (String × Nat) :=
  let kept := dropDupKeepLast (notNullDevStatus frame)
  (statusKeys kept).map fun s =>
    (s, deviceNunique (kept.filter fun r => r.Status == some s))

/-- `frame.dropna(subset=["DeviceID","Timestamp"])` (app.py line 258). -/
def notNullDevTs (frame : Frame) : Frame :=
  frame.filter fun r => r.DeviceID.isSome && r.Timestamp.isSome

/-- The devices grouped by `groupby("DeviceID")` on line 259: distinct
`DeviceID`s among rows with non-null `DeviceID` and `Timestamp`. -/
def devices (frame : Frame) : List String :=
  ((notNullDevTs frame).filterMap fun r => r.DeviceID).dedup

/-- The non-null timestamps of device `d`'s rows. -/
def devTimestamps (frame : Frame) (d : String) : List Int :=
  (notNullDevTs frame).filterMap fun r =>
    if r.DeviceID == some d then r.Timestamp else none

def listMax : List Int → Option Int
  | [] => none
  | t :: ts => some (ts.foldl max t)

/-- `groupby("DeviceID")["Timestamp"].max()` (app.py line 259) for one
device. -/
def lastSeen (frame : Frame) (d : String) : Option Int :=
  listMax (devTimestamps frame d)

/-- `np.where(last_seen >= threshold, "Online", "Offline")` (app.py line 263)
for one device. -/
def isOnline (frame : Frame) (threshold : Int) (d : String) : Bool :=
  match lastSeen frame d with
  | some t => decide (threshold ≤ t)
  | none => false

/-- The recency branch of `derive_status_counts` (app.py lines 258-265).
`now` stands for `pd.Timestamp.now(tz="UTC")` in epoch seconds and
`threshold = now - hours * 3600` for `now_utc - pd.Timedelta(hours=hours)`.
The final `groupby("Status")["DeviceID"].nunique()` emits only non-empty
groups, with keys sorted ascending ("Offline" < "Online"). -/
def recencyCounts (frame : Frame) (hours now : Int) : List (String × Nat) :=
  let threshold := now - hours * 3600
  let offC := ((devices frame).filter fun d => !(isOnline frame threshold d)).length
  let onC := ((devices frame).filter fun d => isOnline frame threshold d).length
  (if offC = 0 then [] else [("Offline", offC)]) ++
    (if onC = 0 then [] else [("Online", onC)])

/-- `derive_status_counts(frame, hours)` (app.py lines 250-265), with the
wall clock `now` made an explicit argument.  Branch order is the code's:
explicit `Status` first, then the empty / all-null-`Timestamp` guard, then
recency. -/
def derive_status_counts (frame : Frame) (hours now : Int) : List (String × Nat) :=
  if frame.any fun r => r.Status.isSome then explicitStatusCounts frame
  else if frame.isEmpty || frame.all fun r => r.Timestamp.isNone then
    [("No Data", 0)]
  else recencyCounts frame hours now

/-- Lookup in the returned mapping; absent keys count 0. -/
def countOf (m : List (String × Nat)) (s : String) : Nat :=
  match m.find? fun p => p.1 == s with
  | some p => p.2
  | none => 0

/-- The devices counted under status `s` by the explicit branch. -/
def statusDevices (frame : Frame) (s : String) : List String :=
  ((dropDupKeepLast (notNullDevStatus frame)).filter fun r =>
    r.Status == some s).filterMap fun r => r.DeviceID

/-- The `Status` value the explicit branch carries for device `d`: the status
on the row `drop_duplicates(keep="last")` retains for `d`. -/
def countedStatus (frame : Frame) (d : String) : Option String :=
  ((dropDupKeepLast (notNullDevStatus frame)).find? fun r =>
    r.DeviceID == some d).bind fun r => r.Status

/-- The status on device `d`'s last-occurring row, in the subset's original
row order, among rows with non-null `DeviceID` and `Status`. -/
def lastOccStatus (frame : Frame) (d : String) : Option String :=
  ((notNullDevStatus frame).reverse.find? fun r =>
    r.DeviceID == some d).bind fun r => r.Status

/-- Timestamp order on rows with null timestamps last, as
`sort_values("Timestamp")` orders rows in pandas. -/
def tsLeB (a b : Row) : Bool :=
  match a.Timestamp, b.Timestamp with
  | some x, some y => decide (x ≤ y)
  | some _, none => true
  | none, some _ => false
  | none, none => true

/-- Stable ascending sort by `Timestamp`. -/
def sortByTs (rows : Frame) : Frame :=
  List.insertionSort (fun a b => tsLeB a b = true) rows

/-- Modelled from the spec: the explicit-`Status` counting as §4.3 step 1 and
the §9 design note word it — "most-recent row (by Timestamp)" per device,
ties broken by "last row after sorting by Timestamp ascending".  It differs
from `explicitStatusCounts` (the code) only by the sort before the
deduplication; the code never sorts by `Timestamp` in this branch. -/
def explicitSpecCounts (frame : Frame) : List (String × Nat) :=
  let kept := dropDupKeepLast (sortByTs (notNullDevStatus frame))
  (statusKeys kept).map fun s =>
    (s, deviceNunique (kept.filter fun r => r.Status == some s))

/-! ### Filter engine (app.py lines 163-205) -/

/-- `working[working["Client"] == client_name]` (app.py line 165): the role
scope for a client caller.  In pandas a null `Client` compares unequal, so
null-client rows are excluded too. -/
def filterClient (callerClientName : String) (rows : Frame) : Frame :=
  rows.filter fun r => r.Client == some callerClientName

/-- One categorical multiselect filter (app.py lines 176-181 and 191-198):
`if sel: working = working[working[col].isin(sel)]`.  An empty selection
leaves the frame unchanged; `isin` is false on null values. -/
def filterIn (col : Row → Option String) (sel : List String) (rows : Frame) : Frame :=
  if sel.isEmpty then rows
  else rows.filter fun r =>
    match col r with
    | some v => sel.contains v
    | none => false

/-- India Standard Time offset, +5:30 hours in seconds ("Asia/Kolkata"). -/
def istOffsetS : Int := 19800

/-- `pd.Timestamp(start).tz_localize("Asia/Kolkata").tz_convert("UTC")`
(app.py line 202): midnight IST of civil day `startDay` (days since epoch)
as UTC epoch seconds. -/
def startUtcOf (startDay : Int) : Int := startDay * 86400 - istOffsetS

/-- `pd.Timestamp(end) + 1 day - 1 second`, localized to IST then converted
to UTC (app.py lines 203-204): 23:59:59 IST of civil day `endDay`. -/
def endUtcOf (endDay : Int) : Int := (endDay + 1) * 86400 - 1 - istOffsetS

/-- The date-range filter (app.py line 205):
`working[(Timestamp >= start_utc) & (Timestamp <= end_utc)]`.  A null
timestamp makes both comparisons false, so the row is dropped. -/
def filterDate (startDay endDay : Int) (rows : Frame) : Frame :=
  rows.filter fun r =>
    match r.Timestamp with
    | some t => decide (startUtcOf startDay ≤ t) && decide (t ≤ endUtcOf endDay)
    | none => false

/-- The sidebar filter choices offered to a client-role caller
(app.py lines 187-190): District, DeviceType, FarmerName, DeviceID
multiselects plus the date range (`none` when the widget does not hold a
two-element range, in which case line 200's guard skips the date filter). -/
structure ClientFilters where
  district : List String
  dtype : List String
  farmer : List String
  device : List String
  dateRange : Option (Int × Int)

/-- The full filter pipeline for a client-role caller (app.py lines 163-165,
183-198, 200-205): role scope first, then the four categorical filters, then
the date filter. -/
def applyClientFilters (callerClientName : String) (f : ClientFilters) (df : Frame) : Frame :=
  let w := filterClient callerClientName df
  let w := filterIn (fun r => r.District) f.district w
  let w := filterIn (fun r => r.DeviceType) f.dtype w
  let w := filterIn (fun r => r.FarmerName) f.farmer w
  let w := filterIn (fun r => r.DeviceID) f.device w
  match f.dateRange with
  | some (s, e) => filterDate s e w
  | none => w

/-- The sidebar filter choices offered to an admin caller
(app.py lines 172-174). -/
structure AdminFilters where
  client : List String
  district : List String
  dtype : List String
  dateRange : Option (Int × Int)

/-- The full filter pipeline for an admin caller (app.py lines 167-181,
200-205): no role scope, three categorical filters, then the date filter. -/
def applyAdminFilters (f : AdminFilters) (df : Frame) : Frame :=
  let w := filterIn (fun r => r.Client) f.client df
  let w := filterIn (fun r => r.District) f.district w
  let w := filterIn (fun r => r.DeviceType) f.dtype w
  match f.dateRange with
  | some (s, e) => filterDate s e w
  | none => w

/-- The admin pipeline with no categorical filter applied at all
(`applyFilters(D, {})`): only the date filter, when active. -/
def applyAdminFiltersNone (dateRange : Option (Int × Int)) (df : Frame) : Frame :=
  match dateRange with
  | some (s, e) => filterDate s e df
  | none => df

/-! ### Out-of-range flagging (Data Quality tab, app.py lines 574-584) -/

/-- `working[(WaterLevel.notna()) & ((WaterLevel < low) | (WaterLevel > high))]`
(app.py line 580). -/
def flagOutOfRange (rows : Frame) (low high : ℚ) : Frame :=
  rows.filter fun r =>
    match r.WaterLevel with
    | some v => decide (v < low) || decide (high < v)
    | none => false

/-- The non-null `WaterLevel` values, `working["WaterLevel"].dropna()`. -/
def nonNullWL (rows : Frame) : List ℚ :=
  rows.filterMap fun r => r.WaterLevel

/-- `np.nanquantile(vals, q)` with numpy's default linear interpolation:
sort ascending, take position `q * (n - 1)` and interpolate between its
neighbours.  Exact over `ℚ`. -/
def quantileLinear (vals : List ℚ) (q : ℚ) : ℚ :=
  let sorted := List.insertionSort (· ≤ ·) vals
  match sorted with
  | [] => 0
  | _ :: _ =>
    let n := sorted.length
    let pos : ℚ := q * ((n : ℚ) - 1)
    let i : Nat := (Rat.floor pos).toNat
    let lo := sorted.getD i 0
    let hi := sorted.getD (min (i + 1) (n - 1)) 0
    lo + (pos - (i : ℚ)) * (hi - lo)

/-- Default lower bound (app.py line 576): the 1st percentile of the non-null
`WaterLevel` values, or `0.0` when there is none. -/
def defLowWL (rows : Frame) : ℚ :=
  if nonNullWL rows = [] then 0 else quantileLinear (nonNullWL rows) (1 / 100)

/-- Default upper bound (app.py line 577): the 99th percentile of the
non-null `WaterLevel` values, or `100.0` when there is none. -/
def defHighWL (rows : Frame) : ℚ :=
  if nonNullWL rows = [] then 100 else quantileLinear (nonNullWL rows) (99 / 100)

/-! ### Feedback submission (Feedback tab, app.py lines 626-673) -/

/-- One stored feedback record (the `row` dict built on app.py lines
645-655).  `Satisfaction` is `none` when the CSV cell is the empty string
(the code stores `""` when the slider was not shown). -/
structure FeedbackRow where
  ID : String
  Timestamp : String
  Client : String
  Status : String
  Satisfaction : Option Nat
  Reason : String
  Changes : String
  Comment : String
  AdminComment : String
  deriving DecidableEq

/-- Python's `str.strip()`: remove leading and trailing whitespace. -/
def pyStrip (s : String) : String :=
  String.mk (((s.data.dropWhile Char.isWhitespace).reverse.dropWhile
    Char.isWhitespace).reverse)

/-- The submit handler (app.py lines 628-669).  The widgets give
`reasonInput` only when the chosen status is "Not Approved" and
`changesInput` only when it is "Changes Required" (lines 635-636); the
slider value `satSlider` is read only when it is "Approved" (lines 631-633).
Validation (lines 639-642) runs before any row is built or persisted:
`st.stop()` aborts the handler, so `.error` models "rejected, nothing
written" and `.ok` the row appended to the CSV and written as JSON. -/
def submitFeedback (fbId ts callerClientName status : String) (satSlider : Nat)
    (reasonInput changesInput commentInput : String) : Except String FeedbackRow :=
  let satisfaction : Option Nat :=
    if status = "Approved" then some satSlider else none
  let reason := if status = "Not Approved" then reasonInput else ""
  let changes := if status = "Changes Required" then changesInput else ""
  if status = "Not Approved" ∧ pyStrip reason = "" then .error "Reason"
  else if status = "Changes Required" ∧ pyStrip changes = "" then .error "Changes"
  else .ok
    { ID := fbId
      Timestamp := ts
      Client := callerClientName
      Status := status
      Satisfaction := satisfaction
      Reason := pyStrip reason
      Changes := pyStrip changes
      Comment := pyStrip commentInput
      AdminComment := "" }

/-! ### Helper lemmas -/

theorem mem_dropDupKeepLast {r : Row} : ∀ {l : Frame}, r ∈ dropDupKeepLast l → r ∈ l := by
  intro l
  induction l with
  | nil => intro h; exact absurd h (List.not_mem_nil r)
  | cons a as ih =>
      intro h
      by_cases hc : as.any fun r2 => r2.DeviceID == a.DeviceID
      · rw [dropDupKeepLast, if_pos hc] at h
        exact List.mem_cons_of_mem a (ih h)
      · rw [dropDupKeepLast, if_neg hc] at h
        rcases List.mem_cons.mp h with h | h
        · exact h ▸ List.mem_cons_self a as
        · exact List.mem_cons_of_mem a (ih h)

theorem statusKeys_nodup (rows : Frame) : (statusKeys rows).Nodup := by
  unfold statusKeys
  exact (List.perm_insertionSort _ _).nodup_iff.mpr (List.nodup_dedup _)

theorem mem_statusKeys {rows : Frame} {s : String} :
    s ∈ statusKeys rows ↔ ∃ r ∈ rows, r.Status = some s := by
  unfold statusKeys
  rw [(List.perm_insertionSort _ _).mem_iff, List.mem_dedup, List.mem_filterMap]

theorem countOf_map_keys (keys : List String) (f : String → Nat) (s : String)
    (hnd : keys.Nodup) :
    countOf (keys.map fun k => (k, f k)) s = if s ∈ keys then f s else 0 := by
  induction keys with
  | nil => simp [countOf]
  | cons k ks ih =>
      rcases List.nodup_cons.mp hnd with ⟨hk, hks⟩
      by_cases he : k = s
      · subst he
        simp [countOf, List.find?, hk]
      · have : ((k, f k).1 == s) = false := by
          simp [he]
        simp only [countOf, List.map_cons, List.find?, this]
        have := ih hks
        simp only [countOf] at this
        rw [this]
        simp [List.mem_cons, Ne.symm he]

theorem dropDupKeepLast_map (m : Row → Row) (hdev : ∀ r, (m r).DeviceID = r.DeviceID) :
    ∀ l : Frame, dropDupKeepLast (l.map m) = (dropDupKeepLast l).map m := by
  intro l
  induction l with
  | nil => rfl
  | cons a as ih =>
      have hcond : ((as.map m).any fun r2 => r2.DeviceID == (m a).DeviceID)
          = as.any fun r2 => r2.DeviceID == a.DeviceID := by
        rw [List.any_map]
        congr 1
        funext r2
        simp [Function.comp, hdev]
      by_cases hc : as.any fun r2 => r2.DeviceID == a.DeviceID
      · rw [List.map_cons, dropDupKeepLast, hcond, if_pos hc, dropDupKeepLast, if_pos hc, ih]
      · rw [List.map_cons, dropDupKeepLast, hcond, if_neg hc, dropDupKeepLast, if_neg hc,
          List.map_cons, ih]

theorem explicitStatusCounts_map (m : Row → Row) (hdev : ∀ r, (m r).DeviceID = r.DeviceID)
    (hst : ∀ r, (m r).Status = r.Status) (frame : Frame) :
    explicitStatusCounts (frame.map m) = explicitStatusCounts frame := by
  have h1 : notNullDevStatus (frame.map m) = (notNullDevStatus frame).map m := by
    unfold notNullDevStatus
    rw [List.filter_map]
    congr 1
    apply List.filter_congr
    intro r _
    simp [Function.comp, hdev, hst]
  have hkeys : ∀ l : Frame, statusKeys (l.map m) = statusKeys l := by
    intro l
    unfold statusKeys
    rw [List.filterMap_map]
    congr 2
    apply List.filterMap_congr
    intro r _
    simp [Function.comp, hst]
  have hdevn : ∀ l : Frame, deviceNunique (l.map m) = deviceNunique l := by
    intro l
    unfold deviceNunique
    rw [List.filterMap_map]
    congr 2
    apply List.filterMap_congr
    intro r _
    simp [Function.comp, hdev]
  unfold explicitStatusCounts
  dsimp only
  rw [h1, dropDupKeepLast_map m hdev, hkeys]
  apply List.map_congr_left
  intro s _
  congr 1
  rw [List.filter_map]
  have : ((dropDupKeepLast (notNullDevStatus frame)).filter
        ((fun r => r.Status == some s) ∘ m))
      = (dropDupKeepLast (notNullDevStatus frame)).filter fun r => r.Status == some s := by
    apply List.filter_congr
    intro r _
    simp [Function.comp, hst]
  rw [this, hdevn]

theorem find?_dropDupKeepLast (d : String) :
    ∀ l : Frame,
      (dropDupKeepLast l).find? (fun r => r.DeviceID == some d)
        = l.reverse.find? fun r => r.DeviceID == some d := by
  intro l
  induction l with
  | nil => rfl
  | cons a as ih =>
      rw [List.reverse_cons, List.find?_append]
      by_cases hc : as.any fun r2 => r2.DeviceID == a.DeviceID
      · rw [dropDupKeepLast, if_pos hc, ih]
        by_cases hp : (a.DeviceID == some d) = true
        · have hdev : a.DeviceID = some d := by simpa using hp
          rcases List.any_eq_true.mp hc with ⟨r2, hr2, hr2d⟩
          have hr2d : r2.DeviceID = some d := by
            have : r2.DeviceID = a.DeviceID := by simpa using hr2d
            rw [this, hdev]
          have hsome : (as.reverse.find? fun r => r.DeviceID == some d).isSome := by
            refine List.find?_isSome.mpr ⟨r2, List.mem_reverse.mpr hr2, ?_⟩
            simp [hr2d]
          rcases Option.isSome_iff_exists.mp hsome with ⟨r3, hr3⟩
          rw [hr3, Option.or]
        · have hnone : ([a].find? fun r => r.DeviceID == some d) = none := by
            simp only [List.find?_eq_none, List.mem_singleton]
            intro x hx
            subst hx
            simp [hp]
          rw [hnone, Option.or_none]
      · rw [dropDupKeepLast, if_neg hc]
        by_cases hp : (a.DeviceID == some d) = true
        · have hdev : a.DeviceID = some d := by simpa using hp
          have hnone : (as.reverse.find? fun r => r.DeviceID == some d) = none := by
            rw [List.find?_eq_none]
            intro x hx hxd
            apply hc
            refine List.any_eq_true.mpr ⟨x, List.mem_reverse.mp hx, ?_⟩
            have : x.DeviceID = some d := by simpa using hxd
            simp [this, hdev]
          rw [hnone, Option.none_or]
          simp [List.find?_cons, hp]
        · have hp' : (a.DeviceID == some d) = false := by
            simpa using hp
          rw [List.find?_cons_of_neg _ (by simp [hp']), ih]
          have hnone : ([a].find? fun r => r.DeviceID == some d) = none := by
            simp only [List.find?_eq_none, List.mem_singleton]
            intro x hx
            subst hx
            simp [hp']
          rw [hnone, Option.or_none]

theorem foldl_max_spec (l : List Int) (a : Int) :
    (l.foldl max a = a ∨ l.foldl max a ∈ l)
      ∧ a ≤ l.foldl max a ∧ ∀ t ∈ l, t ≤ l.foldl max a := by
  induction l generalizing a with
  | nil => simp
  | cons x xs ih =>
      obtain ⟨h1, h2, h3⟩ := ih (max a x)
      simp only [List.foldl_cons]
      refine ⟨?_, ?_, ?_⟩
      · rcases h1 with h | h
        · rcases max_choice a x with hm | hm
          · exact Or.inl (h.trans hm)
          · exact Or.inr (List.mem_cons.mpr (Or.inl (h.trans hm)))
        · exact Or.inr (List.mem_cons_of_mem x h)
      · exact le_trans (le_max_left a x) h2
      · intro t ht
        rcases List.mem_cons.mp ht with rfl | ht
        · exact le_trans (le_max_right a t) h2
        · exact h3 t ht

theorem listMax_spec (l : List Int) (hne : l ≠ []) :
    ∃ m, listMax l = some m ∧ m ∈ l ∧ ∀ t ∈ l, t ≤ m := by
  match l, hne with
  | t :: ts, _ =>
      obtain ⟨h1, h2, h3⟩ := foldl_max_spec ts t
      refine ⟨ts.foldl max t, rfl, ?_, ?_⟩
      · rcases h1 with h | h
        · rw [h]; exact List.mem_cons_self t ts
        · exact List.mem_cons_of_mem t h
      · intro u hu
        rcases List.mem_cons.mp hu with rfl | hu
        · exact h2
        · exact h3 u hu

theorem mem_filterIn {col : Row → Option String} {sel : List String} {rows : Frame}
    {r : Row} (h : r ∈ filterIn col sel rows) : r ∈ rows := by
  unfold filterIn at h
  split at h
  · exact h
  · exact (List.mem_filter.mp h).1

theorem mem_filterDate {s e : Int} {rows : Frame} {r : Row}
    (h : r ∈ filterDate s e rows) : r ∈ rows :=
  (List.mem_filter.mp h).1

/-! ### Concrete frames used by the witnesses and the counterexample -/

def exC1 : Frame :=
  [{ blankRow with DeviceID := some "D", Status := some "OK", Timestamp := some 5 }]

/-- Two rows of one device: the first row is the most recent by `Timestamp`
(status "A"), the second occurs last in row order (status "B"). -/
def exC2 : Frame :=
  [{ blankRow with Timestamp := some 100, DeviceID := some "D", Status := some "A" },
   { blankRow with Timestamp := some 50, DeviceID := some "D", Status := some "B" }]

/-- The spec's recency example: one device, readings 3h, 30h and 50h before
`now = 1000000`, no explicit status. -/
def exC3 : Frame :=
  [{ blankRow with DeviceID := some "D1", Timestamp := some 989200 },
   { blankRow with DeviceID := some "D1", Timestamp := some 892000 },
   { blankRow with DeviceID := some "D1", Timestamp := some 820000 }]

def exC6 : Frame :=
  [{ blankRow with Client := some "AVPN", DeviceID := some "X" },
   { blankRow with Client := some "CIPT", DeviceID := some "Y" }]

def exC6row : Row := { blankRow with Client := some "AVPN", DeviceID := some "X" }

def exC6f : ClientFilters := ⟨[], [], [], [], none⟩

def exC8r4 : Row := { blankRow with WaterLevel := some 1000 }

/-- The spec's out-of-range example: `WaterLevel` values 10, 20, 30, 1000. -/
def exC8 : Frame :=
  [{ blankRow with WaterLevel := some 10 },
   { blankRow with WaterLevel := some 20 },
   { blankRow with WaterLevel := some 30 },
   exC8r4]

/-- Device "E" carries an explicit status; device "D" has only null-status
rows. -/
def exC10 : Frame :=
  [{ blankRow with DeviceID := some "E", Status := some "OK" },
   { blankRow with DeviceID := some "D", Timestamp := some 5 }]

/-! ### Claims -/

/-- Claim C1: whenever the `Status` column has at least one non-null value,
`derive_status_counts` returns the mapping built from the explicit `Status`
values for every `thresholdHours` and every wall clock, and the result does
not change when the rows' `Timestamp` values are replaced arbitrarily — the
recency (Online/Offline) derivation is never used. -/
theorem C1_explicit_precedence (frame : Frame)
    (h : (frame.any fun r => r.Status.isSome) = true) :
    (∀ hours now : Int, derive_status_counts frame hours now = explicitStatusCounts frame)
    ∧ ∀ (g : Row → Option Int) (hours now hours2 now2 : Int),
        derive_status_counts (frame.map fun r => { r with Timestamp := g r }) hours now
          = derive_status_counts frame hours2 now2 := by
  have hbranch : ∀ hours now : Int,
      derive_status_counts frame hours now = explicitStatusCounts frame := by
    intro hours now
    unfold derive_status_counts
    rw [if_pos h]
  refine ⟨hbranch, ?_⟩
  intro g hours now hours2 now2
  have hmap : ((frame.map fun r => { r with Timestamp := g r }).any
      fun r => r.Status.isSome) = true := by
    rw [List.any_map]
    exact h
  rw [hbranch hours2 now2]
  unfold derive_status_counts
  rw [if_pos hmap]
  exact explicitStatusCounts_map (fun r => { r with Timestamp := g r })
    (fun r => rfl) (fun r => rfl) frame

/-- Witness for C1 at a one-row frame with an explicit status. -/
theorem C1_witness :
    (exC1.any fun r => r.Status.isSome) = true
    ∧ derive_status_counts exC1 24 1000 = explicitStatusCounts exC1 :=
  ⟨by decide, (C1_explicit_precedence exC1 (by decide)).1 24 1000⟩

/-- Counterexample to claim C2 as stated: in `exC2` device "D"'s most-recent
row by `Timestamp` carries status "A", but the code counts the last-occurring
row's status "B" — `drop_duplicates(keep="last")` runs without any sort by
`Timestamp`, so the selection depends on the subset's original row order,
not on `Timestamp` order. -/
theorem C2_counterexample :
    derive_status_counts exC2 24 1000 = [("B", 1)]
    ∧ explicitSpecCounts exC2 = [("A", 1)]
    ∧ derive_status_counts exC2 24 1000 ≠ explicitSpecCounts exC2 := by
  refine ⟨by decide, by decide, ?_⟩
  intro h
  rw [show derive_status_counts exC2 24 1000 = [("B", 1)] by decide,
    show explicitSpecCounts exC2 = [("A", 1)] by decide] at h
  exact absurd h (by decide)

/-- Claim C2 (amended): in the explicit-`Status` branch the value counted for
a device is the status of that device's last-occurring row in the subset's
original row order, among its rows with non-null `DeviceID` and `Status`;
`Timestamp` values play no part in the selection. -/
theorem C2_last_occurrence (frame : Frame) (d : String) :
    countedStatus frame d = lastOccStatus frame d := by
  unfold countedStatus lastOccStatus
  rw [find?_dropDupKeepLast]

/-- Claim C4: with no usable explicit status, an empty subset or one whose
timestamps are all null yields exactly the mapping `{"No Data": 0}` (a
well-defined result, no exception). -/
theorem C4_no_data (frame : Frame) (hours now : Int)
    (hs : (frame.any fun r => r.Status.isSome) = false)
    (he : (frame.isEmpty || frame.all fun r => r.Timestamp.isNone) = true) :
    derive_status_counts frame hours now = [("No Data", 0)] := by
  unfold derive_status_counts
  rw [if_neg (by simp [hs]), if_pos he]

/-- Witness for C4: the empty frame, and a non-empty frame whose only
timestamp is null. -/
theorem C4_witness :
    derive_status_counts ([] : Frame) 24 0 = [("No Data", 0)]
    ∧ derive_status_counts [{ blankRow with DeviceID := some "D" }] 24 0
        = [("No Data", 0)] :=
  ⟨C4_no_data [] 24 0 (by decide) (by decide),
   C4_no_data [{ blankRow with DeviceID := some "D" }] 24 0 (by decide) (by decide)⟩

/-- Claim C3: with no usable explicit status and a non-trivial subset,
`derive_status_counts` takes the recency branch; the "Online" (resp.
"Offline") count is the number of devices whose `lastSeen` is at least
(resp. below) `now - thresholdHours`, and each device's `lastSeen` is the
maximum of its non-null timestamps. -/
theorem C3_recency (frame : Frame) (hours now : Int)
    (hs : (frame.any fun r => r.Status.isSome) = false)
    (hne : (frame.isEmpty || frame.all fun r => r.Timestamp.isNone) = false) :
    derive_status_counts frame hours now = recencyCounts frame hours now
    ∧ countOf (derive_status_counts frame hours now) "Online"
        = ((devices frame).filter fun d => isOnline frame (now - hours * 3600) d).length
    ∧ countOf (derive_status_counts frame hours now) "Offline"
        = ((devices frame).filter fun d => !(isOnline frame (now - hours * 3600) d)).length
    ∧ ∀ d ∈ devices frame, ∃ m, lastSeen frame d = some m
        ∧ m ∈ devTimestamps frame d
        ∧ (∀ t ∈ devTimestamps frame d, t ≤ m)
        ∧ isOnline frame (now - hours * 3600) d = decide (now - hours * 3600 ≤ m) := by
  have hbr : derive_status_counts frame hours now = recencyCounts frame hours now := by
    unfold derive_status_counts
    rw [if_neg (by simp [hs]), if_neg (by simp [hne])]
  have hOffOn : (("Offline" : String) == "Online") = false := by decide
  have hOn : countOf (recencyCounts frame hours now) "Online"
      = ((devices frame).filter fun d => isOnline frame (now - hours * 3600) d).length := by
    unfold recencyCounts
    dsimp only
    by_cases h1 : ((devices frame).filter fun d =>
        !(isOnline frame (now - hours * 3600) d)).length = 0 <;>
      by_cases h2 : ((devices frame).filter fun d =>
        isOnline frame (now - hours * 3600) d).length = 0 <;>
      simp [countOf, h1, h2, List.find?_cons, hOffOn]
  have hOff : countOf (recencyCounts frame hours now) "Offline"
      = ((devices frame).filter fun d => !(isOnline frame (now - hours * 3600) d)).length := by
    unfold recencyCounts
    dsimp only
    by_cases h1 : ((devices frame).filter fun d =>
        !(isOnline frame (now - hours * 3600) d)).length = 0 <;>
      by_cases h2 : ((devices frame).filter fun d =>
        isOnline frame (now - hours * 3600) d).length = 0 <;>
      simp [countOf, h1, h2, List.find?_cons]
  refine ⟨hbr, by rw [hbr]; exact hOn, by rw [hbr]; exact hOff, ?_⟩
  intro d hd
  have hex : ∃ r ∈ notNullDevTs frame, r.DeviceID = some d := by
    have h1 : d ∈ (notNullDevTs frame).filterMap fun r => r.DeviceID :=
      List.mem_dedup.mp hd
    exact List.mem_filterMap.mp h1
  obtain ⟨r, hr, hrd⟩ := hex
  have hrts : r.Timestamp.isSome := by
    have := (List.mem_filter.mp hr).2
    simp only [Bool.and_eq_true] at this
    exact this.2
  rcases Option.isSome_iff_exists.mp hrts with ⟨t, ht⟩
  have htmem : t ∈ devTimestamps frame d := by
    unfold devTimestamps
    refine List.mem_filterMap.mpr ⟨r, hr, ?_⟩
    rw [if_pos (by simp [hrd]), ht]
  have hnonempty : devTimestamps frame d ≠ [] := by
    intro hnil
    rw [hnil] at htmem
    exact absurd htmem (List.not_mem_nil t)
  obtain ⟨m, hm1, hm2, hm3⟩ := listMax_spec _ hnonempty
  refine ⟨m, hm1, hm2, hm3, ?_⟩
  unfold isOnline lastSeen
  rw [hm1]

/-- Witness for C3: the spec's example — readings 3h, 30h and 50h old with a
24h threshold give Online with device count 1. -/
theorem C3_witness :
    derive_status_counts exC3 24 1000000 = recencyCounts exC3 24 1000000
    ∧ derive_status_counts exC3 24 1000000 = [("Online", 1)] :=
  ⟨(C3_recency exC3 24 1000000 (by decide) (by decide)).1, by decide⟩

/-- Claim C5: the date filter keeps exactly the rows whose non-null
`Timestamp` lies in the closed UTC interval from midnight IST of the start
day (`startDay * 86400 - 19800` epoch seconds, IST being UTC+5:30) to
23:59:59 IST of the end day (`(endDay + 1) * 86400 - 1 - 19800`); rows with
a null `Timestamp` never pass an active date filter. -/
theorem C5_date_filter (rows : Frame) (startDay endDay : Int) (r : Row) :
    r ∈ filterDate startDay endDay rows ↔
      r ∈ rows ∧ ∃ t, r.Timestamp = some t
        ∧ startDay * 86400 - 19800 ≤ t ∧ t ≤ (endDay + 1) * 86400 - 1 - 19800 := by
  unfold filterDate
  rw [List.mem_filter]
  cases ht : r.Timestamp with
  | none => simp [ht]
  | some t => simp [ht, startUtcOf, endUtcOf, istOffsetS]

/-- Claim C6: for a client-role caller every row surviving the full filter
pipeline has `Client` equal to the caller's client name — the scope is
applied first and no later categorical or date filter can reintroduce
another client's rows. -/
theorem C6_client_scope (callerClientName : String) (f : ClientFilters) (df : Frame)
    (r : Row) (hr : r ∈ applyClientFilters callerClientName f df) :
    r.Client = some callerClientName := by
  obtain ⟨dist, dty, farm, dev, dr⟩ := f
  unfold applyClientFilters at hr
  dsimp only at hr
  have h1 : r ∈ filterIn (fun r => r.DeviceID) dev
      (filterIn (fun r => r.FarmerName) farm
        (filterIn (fun r => r.DeviceType) dty
          (filterIn (fun r => r.District) dist
            (filterClient callerClientName df)))) := by
    cases dr with
    | none => exact hr
    | some p =>
        obtain ⟨s, e⟩ := p
        exact mem_filterDate hr
  have h5 := mem_filterIn (mem_filterIn (mem_filterIn (mem_filterIn h1)))
  have := (List.mem_filter.mp h5).2
  simpa [filterClient] using this

/-- Witness for C6 on a two-client frame with no extra filters. -/
theorem C6_witness :
    exC6row ∈ applyClientFilters "AVPN" exC6f exC6
    ∧ exC6row.Client = some "AVPN" :=
  ⟨by decide, C6_client_scope "AVPN" exC6f exC6 exC6row (by decide)⟩

/-- Claim C7: an empty categorical selection imposes no restriction: each
single-column filter with an empty set is the identity, and the admin
pipeline with all selections empty equals the pipeline with no categorical
filter at all. -/
theorem C7_empty_filter_noop :
    (∀ (col : Row → Option String) (rows : Frame), filterIn col [] rows = rows)
    ∧ ∀ (dateRange : Option (Int × Int)) (df : Frame),
        applyAdminFilters ⟨[], [], [], dateRange⟩ df
          = applyAdminFiltersNone dateRange df := by
  constructor
  · intro col rows
    rfl
  · intro dr df
    cases dr with
    | none => rfl
    | some p =>
        obtain ⟨s, e⟩ := p
        rfl

/-- Claim C8: out-of-range flagging keeps exactly the rows whose `WaterLevel`
is non-null and strictly outside `[low, high]`; the default bounds fall back
to `0.0` and `100.0` when no non-null value exists (otherwise they are the
1st/99th percentiles, `defLowWL`/`defHighWL`); on values 10, 20, 30, 1000
with bounds 0 and 100 exactly the 1000-row is flagged, count 1. -/
theorem C8_flag_out_of_range (rows : Frame) (low high : ℚ) (r : Row) :
    (r ∈ flagOutOfRange rows low high ↔
      r ∈ rows ∧ ∃ v, r.WaterLevel = some v ∧ (v < low ∨ high < v))
    ∧ (nonNullWL rows = [] → defLowWL rows = 0 ∧ defHighWL rows = 100)
    ∧ flagOutOfRange exC8 0 100 = [exC8r4]
    ∧ (flagOutOfRange exC8 0 100).length = 1 := by
  refine ⟨?_, ?_, by decide, by decide⟩
  · unfold flagOutOfRange
    rw [List.mem_filter]
    cases hw : r.WaterLevel with
    | none => simp [hw]
    | some v => simp [hw]
  · intro h
    unfold defLowWL defHighWL
    rw [if_pos h, if_pos h]
    exact ⟨rfl, rfl⟩

/-- Witness for C8: with no non-null `WaterLevel` the default bounds are 0
and 100. -/
theorem C8_witness :
    nonNullWL ([] : Frame) = []
    ∧ defLowWL ([] : Frame) = 0 ∧ defHighWL ([] : Frame) = 100 :=
  ⟨rfl, (C8_flag_out_of_range [] 0 0 blankRow).2.1 rfl⟩

/-- Claim C9: a "Not Approved" submission with a blank (whitespace-only)
Reason, or a "Changes Required" submission with a blank Changes, is rejected
before anything is persisted; and a stored entry carries a `Satisfaction`
value exactly when its status is "Approved". -/
theorem C9_feedback_validation (fbId ts callerClientName status : String)
    (satSlider : Nat) (reasonInput changesInput commentInput : String) :
    (status = "Not Approved" → pyStrip reasonInput = "" →
      submitFeedback fbId ts callerClientName status satSlider reasonInput
        changesInput commentInput = Except.error "Reason")
    ∧ (status = "Changes Required" → pyStrip changesInput = "" →
      submitFeedback fbId ts callerClientName status satSlider reasonInput
        changesInput commentInput = Except.error "Changes")
    ∧ ∀ row, submitFeedback fbId ts callerClientName status satSlider reasonInput
        changesInput commentInput = Except.ok row →
        (row.Satisfaction.isSome ↔ row.Status = "Approved") ∧ row.Status = status := by
  unfold submitFeedback
  refine ⟨?_, ?_, ?_⟩
  · intro h1 h2
    subst h1
    rw [if_pos ⟨rfl, by rw [if_pos rfl]; exact h2⟩]
  · intro h1 h2
    subst h1
    have hne : ¬(("Changes Required" : String) = "Not Approved"
        ∧ pyStrip (if ("Changes Required" : String) = "Not Approved" then reasonInput
            else "") = "") := by
      rintro ⟨hc, -⟩
      exact absurd hc (by decide)
    rw [if_neg hne, if_pos ⟨rfl, by rw [if_pos rfl]; exact h2⟩]
  · intro row h
    by_cases h1 : status = "Not Approved"
        ∧ pyStrip (if status = "Not Approved" then reasonInput else "") = ""
    · rw [if_pos h1] at h
      exact absurd h (by simp)
    · rw [if_neg h1] at h
      by_cases h2 : status = "Changes Required"
          ∧ pyStrip (if status = "Changes Required" then changesInput else "") = ""
      · rw [if_pos h2] at h
        exact absurd h (by simp)
      · rw [if_neg h2] at h
        injection h with h
        subst h
        refine ⟨?_, rfl⟩
        by_cases hA : status = "Approved"
        · simp [hA]
        · simp [hA]

/-- Witness for C9: a "Not Approved" submission with a whitespace-only
reason is rejected with the missing field named. -/
theorem C9_witness :
    submitFeedback "id0" "t0" "AVPN" "Not Approved" 5 " " "" "c"
      = Except.error "Reason" :=
  (C9_feedback_validation "id0" "t0" "AVPN" "Not Approved" 5 " " "" "c").1 rfl
    (by decide)

/-- Claim C10: in the explicit-`Status` branch a device all of whose rows
have a null `Status` is dropped before selection: it appears under no status
key of the returned mapping (in particular not under "No Data"), every key's
count being the number of distinct devices carrying that status. -/
theorem C10_null_status_device (frame : Frame) (hours now : Int) (d : String)
    (hexp : (frame.any fun r => r.Status.isSome) = true)
    (hall : ∀ r ∈ frame, r.DeviceID = some d → r.Status = none) :
    derive_status_counts frame hours now = explicitStatusCounts frame
    ∧ (∀ s : String, d ∉ statusDevices frame s)
    ∧ ∀ s : String,
        countOf (derive_status_counts frame hours now) s
          = ((statusDevices frame s).dedup).length := by
  have hbr : derive_status_counts frame hours now = explicitStatusCounts frame := by
    unfold derive_status_counts
    rw [if_pos hexp]
  have habs : ∀ s : String, d ∉ statusDevices frame s := by
    intro s hd
    unfold statusDevices at hd
    rcases List.mem_filterMap.mp hd with ⟨r, hr, hrd⟩
    have hrk := List.mem_filter.mp hr
    have hrf : r ∈ frame := (List.mem_filter.mp (mem_dropDupKeepLast hrk.1)).1
    have hnone := hall r hrf hrd
    have hsome : r.Status = some s := by simpa using hrk.2
    rw [hnone] at hsome
    exact Option.noConfusion hsome
  have hcount : ∀ s : String, countOf (explicitStatusCounts frame) s
      = ((statusDevices frame s).dedup).length := by
    intro s
    unfold explicitStatusCounts
    dsimp only
    rw [countOf_map_keys _ _ _ (statusKeys_nodup _)]
    by_cases hmem : s ∈ statusKeys (dropDupKeepLast (notNullDevStatus frame))
    · rw [if_pos hmem]
      rfl
    · rw [if_neg hmem]
      have hnil : (dropDupKeepLast (notNullDevStatus frame)).filter
          (fun r => r.Status == some s) = [] := by
        rw [List.filter_eq_nil_iff]
        intro a ha hcontra
        exact hmem (mem_statusKeys.mpr ⟨a, ha, by simpa using hcontra⟩)
      unfold statusDevices
      rw [hnil]
      rfl
  exact ⟨hbr, habs, fun s => by rw [hbr]; exact hcount s⟩

/-- Witness for C10: device "D" has only null-status rows beside device "E"
with an explicit status, and is counted nowhere. -/
theorem C10_witness :
    derive_status_counts exC10 24 0 = explicitStatusCounts exC10
    ∧ "D" ∉ statusDevices exC10 "OK" :=
  ⟨(C10_null_status_device exC10 24 0 "D" (by decide) (by decide)).1,
   (C10_null_status_device exC10 24 0 "D" (by decide) (by decide)).2.1 "OK"⟩
